import Mathlib

/-!
Verification of the retail-investor stock analyzer (`src/main.py`) against its
natural-language specification.

The program is embedded shallowly:

* Python floats are modelled as exact rationals (`ℚ`); Python `round(x, 2)` and
  the `:.2f` format specifier both round half-to-even at two decimals, which is
  modelled by `roundHalfEven`.
* The yfinance `info` dictionary is modelled by `Snapshot`, whose fields are
  `Option`-valued (absent keys are `none`); `dict.get(key, default)` becomes
  `Option.getD` or, for the currency-style fields defaulting to the string
  `N/A`, a formatting helper that raises exactly when the field is absent.
* Python exceptions are modelled with `Except String`; the `try/except` blocks
  of `get_key_metrics` and `plot_price_history` become the corresponding
  `match` on the `Except` value.
* `f"...{x:.2f}"` is modelled by `renderFixed2`, `f"{n:,}"` by `renderComma`,
  and `float(...)` on the strings the program produces by `pyFloat?`; the
  string round trip (format a percentage, strip the percent sign, parse it
  back) is proved exactly, character by character.
* The two network fetches and the `yf.download` call are modelled by passing
  their outcomes (`Except String Snapshot`, `Except String Frame`) as inputs;
  `analyzeTrace` records which provider calls the `main` flow issues.
-/

attribute [local semireducible] Rat.add Rat.mul Rat.inv Rat.sub Rat.ofScientific

/-! ## Half-even rounding (Python `round` / `:.2f` semantics) -/

/-- Round a rational to the nearest integer, ties to even: the semantics of
Python `round` and of float formatting at a fixed number of decimals. -/
def roundHalfEven (x : ℚ) : ℤ :=
  if x - ⌊x⌋ < 1/2 then ⌊x⌋
  else if 1/2 < x - ⌊x⌋ then ⌊x⌋ + 1
  else if ⌊x⌋ % 2 = 0 then ⌊x⌋ else ⌊x⌋ + 1

/-- Python `round(x, 2)`: round half-to-even at two decimal places. -/
def pyRound2 (x : ℚ) : ℚ := ((roundHalfEven (100 * x) : ℤ) : ℚ) / 100

theorem roundHalfEven_cases (x : ℚ) :
    roundHalfEven x = ⌊x⌋ ∨ roundHalfEven x = ⌊x⌋ + 1 := by
  unfold roundHalfEven
  split_ifs <;> simp

theorem roundHalfEven_nonneg (x : ℚ) (hx : 0 ≤ x) : 0 ≤ roundHalfEven x := by
  have hf : 0 ≤ ⌊x⌋ := Int.floor_nonneg.mpr hx
  rcases roundHalfEven_cases x with h | h <;> omega

theorem roundHalfEven_nonpos (x : ℚ) (hx : x < 0) : roundHalfEven x ≤ 0 := by
  have hf : ¬ 0 ≤ ⌊x⌋ := by
    simp only [Int.floor_nonneg]
    exact not_le.mpr hx
  rcases roundHalfEven_cases x with h | h <;> omega

/-! ## Decimal digits of a natural number

`digitsLEAux` peels base-10 digits (least significant first) with explicit
fuel, so that every definition below evaluates by kernel reduction. -/

def digitsLEAux : Nat → Nat → List Nat
  | 0, _ => []
  | fuel+1, n => if n = 0 then [] else n % 10 :: digitsLEAux fuel (n / 10)

/-- Base-10 digits of `n`, least significant first; empty for `0`. -/
def digitsLE (n : Nat) : List Nat := digitsLEAux n n

theorem ofDigits_digitsLEAux (fuel : Nat) :
    ∀ n, n ≤ fuel → Nat.ofDigits 10 (digitsLEAux fuel n) = n := by
  induction fuel with
  | zero => intro n hn; interval_cases n; simp [digitsLEAux]
  | succ f ih =>
    intro n hn
    by_cases h0 : n = 0
    · simp [digitsLEAux, h0]
    · have hdiv : n / 10 ≤ f := by omega
      simp only [digitsLEAux, h0, if_false, Nat.ofDigits_cons, ih (n / 10) hdiv]
      omega

theorem ofDigits_digitsLE (n : Nat) : Nat.ofDigits 10 (digitsLE n) = n :=
  ofDigits_digitsLEAux n n (Nat.le_refl n)

theorem digitsLEAux_lt (fuel : Nat) :
    ∀ n d, d ∈ digitsLEAux fuel n → d < 10 := by
  induction fuel with
  | zero => intro n d hd; simp [digitsLEAux] at hd
  | succ f ih =>
    intro n d hd
    by_cases h0 : n = 0
    · simp [digitsLEAux, h0] at hd
    · simp only [digitsLEAux, h0, if_false, List.mem_cons] at hd
      rcases hd with h | h
      · omega
      · exact ih _ _ h

theorem digitsLE_lt (n d : Nat) (hd : d ∈ digitsLE n) : d < 10 :=
  digitsLEAux_lt n n d hd

/-! ## Rendering numbers as strings -/

/-- Characters of a natural number in base 10, most significant first
(`str(n)` for a nonnegative Python int). -/
def natChars (n : Nat) : List Char :=
  if n = 0 then ['0'] else (digitsLE n).reverse.map Nat.digitChar

/-- `f"{x:.2f}"` on an (exact-rational) float: round `100 * x` half-to-even,
then print `intpart.fracpart` with exactly two fractional digits, with a
leading minus sign for negative inputs. -/
def renderFixed2Chars (x : ℚ) : List Char :=
  let a := (roundHalfEven (100 * x)).natAbs
  (if x < 0 then ['-'] else []) ++
    natChars (a / 100) ++ '.' :: [Nat.digitChar (a % 100 / 10), Nat.digitChar (a % 100 % 10)]

def renderFixed2 (x : ℚ) : String := String.mk (renderFixed2Chars x)

/-- Split a little-endian digit list into groups of three (thousands groups). -/
def chunk3 : List Nat → List (List Nat)
  | [] => []
  | [a] => [[a]]
  | [a, b] => [[a, b]]
  | a :: b :: c :: rest => [a, b, c] :: chunk3 rest

/-- `f"{n:,}"` on a Python int: decimal digits with a comma every three. -/
def renderComma (n : ℤ) : String :=
  let ds := digitsLE n.natAbs
  let body :=
    if ds.isEmpty then "0"
    else String.mk
      (List.intercalate [','] ((chunk3 ds).reverse.map fun g => g.reverse.map Nat.digitChar))
  (if n < 0 then "-" else "") ++ body

/-! ## Parsing (`float(...)` on the strings the program builds) -/

def charToDigit? (c : Char) : Option Nat :=
  if 48 ≤ c.toNat ∧ c.toNat ≤ 57 then some (c.toNat - 48) else none

def digitVals? : List Char → Option (List Nat)
  | [] => some []
  | c :: cs =>
    match charToDigit? c, digitVals? cs with
    | some d, some ds => some (d :: ds)
    | _, _ => none

/-- Value of a string of decimal digits (most significant first); `none` if
any character is not a digit. The empty string parses as `0`; emptiness is
rejected by the caller where Python would reject it. -/
def parseNat? (cs : List Char) : Option Nat :=
  (digitVals? cs).map fun ds => Nat.ofDigits 10 ds.reverse

/-- Parse an unsigned decimal, optionally with a fractional part, as Python
`float` does on such strings. -/
def parseUnsigned? (cs : List Char) : Option ℚ :=
  match cs.dropWhile (fun c => c ≠ '.') with
  | [] =>
    if cs.isEmpty then none else (parseNat? cs).map fun a => (a : ℚ)
  | _ :: fp =>
    let ip := cs.takeWhile (fun c => c ≠ '.')
    if ip.isEmpty ∧ fp.isEmpty then none
    else
      match parseNat? ip, parseNat? fp with
      | some a, some b => some ((a : ℚ) + (b : ℚ) / (10 : ℚ) ^ fp.length)
      | _, _ => none

/-- Python `float(s)` on simple decimal strings (optional sign, digits,
optional fractional part). -/
def pyFloat? (cs : List Char) : Option ℚ :=
  if cs.head? = some '-' then (parseUnsigned? cs.tail).map fun q => -q
  else if cs.head? = some '+' then parseUnsigned? cs.tail
  else parseUnsigned? cs

/-! ## The format-then-parse round trip

`main` formats the dividend yield and revenue growth as percent strings and
then parses them back with `float(...replace('%',''))`; these lemmas establish
that the parsed value is exactly the two-decimal rounding of the number that
was formatted. -/

theorem char_ne_of_toNat {c d : Char} (h : c.toNat ≠ d.toNat) : c ≠ d :=
  fun he => h (he ▸ rfl)

theorem charToDigit_digitChar (d : Nat) (hd : d < 10) :
    charToDigit? (Nat.digitChar d) = some d := by
  interval_cases d <;> decide

theorem digitChar_range (d : Nat) (hd : d < 10) :
    48 ≤ (Nat.digitChar d).toNat ∧ (Nat.digitChar d).toNat ≤ 57 := by
  interval_cases d <;> decide

theorem digitVals_map_digitChar (ds : List Nat) (h : ∀ d ∈ ds, d < 10) :
    digitVals? (ds.map Nat.digitChar) = some ds := by
  induction ds with
  | nil => rfl
  | cons d ds ih =>
    simp only [List.map_cons, digitVals?,
      charToDigit_digitChar d (h d (List.mem_cons_self d ds)),
      ih fun x hx => h x (List.mem_cons_of_mem d hx)]

theorem parseNat_natChars (m : Nat) : parseNat? (natChars m) = some m := by
  by_cases h0 : m = 0
  · subst h0; decide
  · have hvals : digitVals? ((digitsLE m).reverse.map Nat.digitChar) =
        some (digitsLE m).reverse :=
      digitVals_map_digitChar _ fun d hd => digitsLE_lt m d (List.mem_reverse.mp hd)
    unfold natChars
    rw [if_neg h0]
    unfold parseNat?
    rw [hvals, Option.map_some', List.reverse_reverse, ofDigits_digitsLE]

theorem natChars_range (m : Nat) :
    ∀ c ∈ natChars m, 48 ≤ c.toNat ∧ c.toNat ≤ 57 := by
  intro c hc
  unfold natChars at hc
  by_cases h0 : m = 0
  · simp [h0] at hc; subst hc; decide
  · simp only [h0, if_false, List.mem_map, List.mem_reverse] at hc
    obtain ⟨d, hd, rfl⟩ := hc
    exact digitChar_range d (digitsLE_lt m d hd)

theorem natChars_cons (m : Nat) :
    ∃ c cs, natChars m = c :: cs ∧ 48 ≤ c.toNat ∧ c.toNat ≤ 57 := by
  cases hnc : natChars m with
  | nil =>
    exfalso
    unfold natChars at hnc
    by_cases h0 : m = 0
    · simp [h0] at hnc
    · simp only [h0, if_false] at hnc
      have : Nat.ofDigits 10 (digitsLE m) = m := ofDigits_digitsLE m
      have hd : (digitsLE m).reverse.map Nat.digitChar = [] := hnc
      simp at hd
      rw [hd] at this
      simp [Nat.ofDigits] at this
      omega
  | cons c cs =>
    refine ⟨c, cs, rfl, ?_⟩
    exact natChars_range m c (hnc ▸ List.mem_cons_self c cs)

theorem takeWhile_dropWhile_dot (l r : List Char) (hl : ∀ c ∈ l, c ≠ '.') :
    (l ++ '.' :: r).takeWhile (fun c => c ≠ '.') = l ∧
      (l ++ '.' :: r).dropWhile (fun c => c ≠ '.') = '.' :: r := by
  induction l with
  | nil => simp [List.takeWhile_cons, List.dropWhile_cons]
  | cons a l ih =>
    have ha : a ≠ '.' := hl a (List.mem_cons_self a l)
    have ih2 := ih fun c hc => hl c (List.mem_cons_of_mem a hc)
    constructor
    · simp only [List.cons_append]
      rw [List.takeWhile_cons_of_pos (by simp [ha]), ih2.1]
    · simp only [List.cons_append]
      rw [List.dropWhile_cons_of_pos (by simp [ha]), ih2.2]

theorem parseUnsigned_intfrac (m r : Nat) (hr : r < 100) :
    parseUnsigned? (natChars m ++ '.' ::
        [Nat.digitChar (r / 10), Nat.digitChar (r % 10)]) =
      some ((m : ℚ) + (r : ℚ) / 100) := by
  have hdig : ∀ c ∈ natChars m, c ≠ '.' := by
    intro c hc
    have hrange := natChars_range m c hc
    have hdot : ('.' : Char).toNat = 46 := by decide
    exact char_ne_of_toNat (by omega)
  obtain ⟨htake, hdrop⟩ :=
    takeWhile_dropWhile_dot (natChars m) [Nat.digitChar (r / 10), Nat.digitChar (r % 10)] hdig
  obtain ⟨c, cs, hcons, _, _⟩ := natChars_cons m
  have hip : (natChars m).isEmpty = false := by rw [hcons]; rfl
  have hfrac : parseNat? [Nat.digitChar (r / 10), Nat.digitChar (r % 10)] = some r := by
    have h1 : r / 10 < 10 := by omega
    have h2 : r % 10 < 10 := by omega
    simp only [parseNat?, digitVals?, charToDigit_digitChar _ h1, charToDigit_digitChar _ h2]
    simp [Nat.ofDigits]
    omega
  rw [parseUnsigned?]
  rw [hdrop, htake]
  simp only [hip, Bool.false_eq_true, false_and, if_false, hfrac, parseNat_natChars,
    List.isEmpty_cons, List.length_cons, List.length_nil]
  norm_num

theorem head?_append_of_ne_nil (l r : List Char) (h : l ≠ []) :
    (l ++ r).head? = l.head? := by
  cases l with
  | nil => exact absurd rfl h
  | cons a l => rfl

theorem natAbs_div_mod_q (a : Nat) :
    ((a / 100 : ℕ) : ℚ) + ((a % 100 : ℕ) : ℚ) / 100 = (a : ℚ) / 100 := by
  have h := Nat.div_add_mod a 100
  have hq : ((100 * (a / 100) + a % 100 : ℕ) : ℚ) = (a : ℚ) := by exact_mod_cast h
  push_cast at hq
  field_simp
  linarith

theorem pyFloat_renderFixed2Chars (x : ℚ) :
    pyFloat? (renderFixed2Chars x) = some (pyRound2 x) := by
  have hr : (roundHalfEven (100 * x)).natAbs % 100 < 100 := Nat.mod_lt _ (by norm_num)
  have hbody := parseUnsigned_intfrac ((roundHalfEven (100 * x)).natAbs / 100)
    ((roundHalfEven (100 * x)).natAbs % 100) hr
  have hval := natAbs_div_mod_q (roundHalfEven (100 * x)).natAbs
  by_cases hx : x < 0
  · have hn0 : roundHalfEven (100 * x) ≤ 0 := roundHalfEven_nonpos _ (by linarith)
    have hcast : (((roundHalfEven (100 * x)).natAbs : ℕ) : ℚ) =
        -((roundHalfEven (100 * x) : ℤ) : ℚ) := by
      rw [Int.cast_natAbs, abs_of_nonpos hn0]
      push_cast
      ring
    have hchars : renderFixed2Chars x = '-' ::
        (natChars ((roundHalfEven (100 * x)).natAbs / 100) ++ '.' ::
          [Nat.digitChar ((roundHalfEven (100 * x)).natAbs % 100 / 10),
           Nat.digitChar ((roundHalfEven (100 * x)).natAbs % 100 % 10)]) := by
      unfold renderFixed2Chars
      rw [if_pos hx]
      rfl
    have hpf : pyFloat? ('-' ::
        (natChars ((roundHalfEven (100 * x)).natAbs / 100) ++ '.' ::
          [Nat.digitChar ((roundHalfEven (100 * x)).natAbs % 100 / 10),
           Nat.digitChar ((roundHalfEven (100 * x)).natAbs % 100 % 10)])) =
        (parseUnsigned? (natChars ((roundHalfEven (100 * x)).natAbs / 100) ++ '.' ::
          [Nat.digitChar ((roundHalfEven (100 * x)).natAbs % 100 / 10),
           Nat.digitChar ((roundHalfEven (100 * x)).natAbs % 100 % 10)])).map
          (fun q => -q) := by
      unfold pyFloat?
      rw [List.head?_cons, List.tail_cons, if_pos rfl]
    rw [hchars, hpf, hbody, Option.map_some']
    congr 1
    rw [hval, hcast]
    unfold pyRound2
    ring
  · have hx2 : (0 : ℚ) ≤ 100 * x := by
      have := not_lt.mp hx
      linarith
    have hn0 : 0 ≤ roundHalfEven (100 * x) := roundHalfEven_nonneg _ hx2
    have hcast : (((roundHalfEven (100 * x)).natAbs : ℕ) : ℚ) =
        ((roundHalfEven (100 * x) : ℤ) : ℚ) := by
      rw [Int.cast_natAbs, abs_of_nonneg hn0]
    have hchars : renderFixed2Chars x =
        natChars ((roundHalfEven (100 * x)).natAbs / 100) ++ '.' ::
          [Nat.digitChar ((roundHalfEven (100 * x)).natAbs % 100 / 10),
           Nat.digitChar ((roundHalfEven (100 * x)).natAbs % 100 % 10)] := by
      unfold renderFixed2Chars
      rw [if_neg hx]
      rfl
    obtain ⟨c, cs, hcons, hc48, hc57⟩ := natChars_cons ((roundHalfEven (100 * x)).natAbs / 100)
    have hhead : (natChars ((roundHalfEven (100 * x)).natAbs / 100) ++ '.' ::
        [Nat.digitChar ((roundHalfEven (100 * x)).natAbs % 100 / 10),
         Nat.digitChar ((roundHalfEven (100 * x)).natAbs % 100 % 10)]).head? = some c := by
      rw [head?_append_of_ne_nil _ _ (by rw [hcons]; simp), hcons]
      rfl
    have hpf : pyFloat? (natChars ((roundHalfEven (100 * x)).natAbs / 100) ++ '.' ::
        [Nat.digitChar ((roundHalfEven (100 * x)).natAbs % 100 / 10),
         Nat.digitChar ((roundHalfEven (100 * x)).natAbs % 100 % 10)]) =
        parseUnsigned? (natChars ((roundHalfEven (100 * x)).natAbs / 100) ++ '.' ::
          [Nat.digitChar ((roundHalfEven (100 * x)).natAbs % 100 / 10),
           Nat.digitChar ((roundHalfEven (100 * x)).natAbs % 100 % 10)]) := by
      unfold pyFloat?
      rw [hhead]
      rw [if_neg (by
        intro h
        injection h with h2
        subst h2
        exact absurd hc48 (by decide))]
      rw [if_neg (by
        intro h
        injection h with h2
        subst h2
        exact absurd hc48 (by decide))]
    rw [hchars, hpf, hbody]
    congr 1
    rw [hval, hcast]
    unfold pyRound2
    rfl

theorem renderFixed2Chars_no_percent (x : ℚ) : ∀ c ∈ renderFixed2Chars x, c ≠ '%' := by
  intro c hc
  have h37 : ('%' : Char).toNat = 37 := by decide
  have h45 : ('-' : Char).toNat = 45 := by decide
  have h46 : ('.' : Char).toNat = 46 := by decide
  unfold renderFixed2Chars at hc
  rw [List.append_assoc, List.mem_append] at hc
  rcases hc with hc | hc
  · split at hc
    · simp only [List.mem_singleton] at hc
      subst hc
      exact char_ne_of_toNat (by omega)
    · simp at hc
  · rw [List.mem_append] at hc
    rcases hc with hc | hc
    · have := natChars_range _ c hc
      exact char_ne_of_toNat (by omega)
    · simp only [List.mem_cons, List.mem_singleton] at hc
      rcases hc with rfl | rfl | rfl | hc
      · exact char_ne_of_toNat (by omega)
      · have := digitChar_range _ (show (roundHalfEven (100 * x)).natAbs % 100 / 10 < 10 by omega)
        exact char_ne_of_toNat (by omega)
      · have := digitChar_range _ (show (roundHalfEven (100 * x)).natAbs % 100 % 10 < 10 by omega)
        exact char_ne_of_toNat (by omega)
      · simp at hc

theorem filter_strip_percent (x : ℚ) :
    ((renderFixed2 x ++ "%").data).filter (fun c => c ≠ '%') = renderFixed2Chars x := by
  have hdata : (renderFixed2 x ++ "%").data = renderFixed2Chars x ++ ['%'] := rfl
  rw [hdata, List.filter_append]
  have h1 : (renderFixed2Chars x).filter (fun c => c ≠ '%') = renderFixed2Chars x :=
    List.filter_eq_self.mpr fun c hc => by simp [renderFixed2Chars_no_percent x c hc]
  have h2 : (['%'] : List Char).filter (fun c => c ≠ '%') = [] := by decide
  rw [h1, h2, List.append_nil]

/-- The format-then-parse pipeline of `main`: formatting `y` with two decimals
and a percent sign, stripping the sign, and parsing with `float` yields
exactly the two-decimal half-even rounding of `y`. -/
theorem pct_roundtrip (y : ℚ) :
    pyFloat? (((renderFixed2 y ++ "%").data).filter (fun c => c ≠ '%')) =
      some (pyRound2 y) := by
  rw [filter_strip_percent, pyFloat_renderFixed2Chars]

/-! ## Data model

`Snapshot` models the yfinance `info` dictionary: each field that
`get_key_metrics` reads is `Option`-valued (`none` = key absent). Field
values are exact rationals (`marketCap` is an integer, as yfinance returns).
`longName` is the extra key `main` reads for the page header. -/

structure Snapshot where
  currentPrice : Option ℚ := none
  marketCap : Option ℤ := none
  trailingPE : Option ℚ := none
  priceToBook : Option ℚ := none
  forwardPE : Option ℚ := none
  dividendYield : Option ℚ := none
  dividendRate : Option ℚ := none
  payoutRatio : Option ℚ := none
  fiftyTwoWeekHigh : Option ℚ := none
  fiftyTwoWeekLow : Option ℚ := none
  week52Change : Option ℚ := none
  trailingEps : Option ℚ := none
  forwardEps : Option ℚ := none
  revenueGrowth : Option ℚ := none
  longName : Option String := none
deriving DecidableEq

/-- A value stored in the metrics dictionary: the formatted entries are
strings, the `round(...)`-produced entries (P/E Ratio, Price to Book,
Forward P/E, both EPS fields) are numbers. -/
inductive Metric where
  | str (s : String)
  | num (q : ℚ)
deriving DecidableEq

/-- The metrics dictionary: category name to ordered label/value pairs,
in insertion order as Python dicts preserve it. -/
abbrev Metrics := List (String × List (String × Metric))

deriving instance DecidableEq for Except

/-- `f"₹{info.get(key, 'N/A'):.2f}"`: when the key is present the number is
formatted with two decimals; when absent, the string default `N/A` meets the
`:.2f` format spec and Python raises
`ValueError: Unknown format code 'f' for object of type 'str'`. -/
def pyFmtFixed2NA : Option ℚ → Except String String
  | some q => .ok (renderFixed2 q)
  | none => .error "Unknown format code f for object of type str"

/-- `f"₹{info.get('marketCap', 'N/A'):,}"`: a present integer is rendered
with thousands separators; the absent-key default `N/A` meets the `:,`
format spec and Python raises `ValueError: Cannot specify ',' with 's'`. -/
def pyFmtCommaNA : Option ℤ → Except String String
  | some z => .ok (renderComma z)
  | none => .error "Cannot specify , with s"

/-- The dictionary literal of `get_key_metrics` (src/main.py lines 21-51).
Python evaluates the entries in source order, so the first currency-style
field whose format raises aborts the whole literal; the five fallible
entries are sequenced here in that order (Current Price, Market Cap,
Dividend Rate, 52-Week High, 52-Week Low). All other fields default to `0`
and never raise. -/
def buildMetrics (info : Snapshot) : Except String Metrics :=
  match pyFmtFixed2NA info.currentPrice with
  | .error e => .error e
  | .ok currentPriceStr =>
  match pyFmtCommaNA info.marketCap with
  | .error e => .error e
  | .ok marketCapStr =>
  match pyFmtFixed2NA info.dividendRate with
  | .error e => .error e
  | .ok dividendRateStr =>
  match pyFmtFixed2NA info.fiftyTwoWeekHigh with
  | .error e => .error e
  | .ok highStr =>
  match pyFmtFixed2NA info.fiftyTwoWeekLow with
  | .error e => .error e
  | .ok lowStr =>
  .ok [("Valuation",
         [("Current Price", Metric.str ("₹" ++ currentPriceStr)),
          ("Market Cap", Metric.str ("₹" ++ marketCapStr)),
          ("P/E Ratio", Metric.num (pyRound2 (info.trailingPE.getD 0))),
          ("Price to Book", Metric.num (pyRound2 (info.priceToBook.getD 0))),
          ("Forward P/E", Metric.num (pyRound2 (info.forwardPE.getD 0)))]),
       ("Dividend",
         [("Dividend Yield", Metric.str (renderFixed2 (info.dividendYield.getD 0 * 100) ++ "%")),
          ("Dividend Rate", Metric.str ("₹" ++ dividendRateStr)),
          ("Payout Ratio", Metric.str (renderFixed2 (info.payoutRatio.getD 0 * 100) ++ "%"))]),
       ("Performance",
         [("52-Week High", Metric.str ("₹" ++ highStr)),
          ("52-Week Low", Metric.str ("₹" ++ lowStr)),
          ("1Y Return", Metric.str (renderFixed2 (info.week52Change.getD 0 * 100) ++ "%"))]),
       ("Growth",
         [("EPS (Trailing)", Metric.num (pyRound2 (info.trailingEps.getD 0))),
          ("EPS (Forward)", Metric.num (pyRound2 (info.forwardEps.getD 0))),
          ("Revenue Growth", Metric.str (renderFixed2 (info.revenueGrowth.getD 0 * 100) ++ "%"))])]

/-- `get_key_metrics` (src/main.py lines 8-57): the whole body runs inside
one `try`; any exception, from the provider fetch or from formatting, is
caught, reported as `st.error(f"Error fetching stock data: {e}")`, and turns
the result into `None`. The provider fetch outcome (`stock.info`) is the
input. -/
def get_key_metrics (fetched : Except String Snapshot) : Except String Metrics :=
  match fetched with
  | .error e => .error ("Error fetching stock data: " ++ e)
  | .ok info =>
    match buildMetrics info with
    | .error e => .error ("Error fetching stock data: " ++ e)
    | .ok m => .ok m

/-- The metrics dictionary a successful `get_key_metrics` run produces,
with the five currency-style field values given explicitly (they must have
been present for the formatting not to raise). -/
def metricsOf (info : Snapshot) (cp : ℚ) (mc : ℤ) (dr hi lo : ℚ) : Metrics :=
  [("Valuation",
     [("Current Price", Metric.str ("₹" ++ renderFixed2 cp)),
      ("Market Cap", Metric.str ("₹" ++ renderComma mc)),
      ("P/E Ratio", Metric.num (pyRound2 (info.trailingPE.getD 0))),
      ("Price to Book", Metric.num (pyRound2 (info.priceToBook.getD 0))),
      ("Forward P/E", Metric.num (pyRound2 (info.forwardPE.getD 0)))]),
   ("Dividend",
     [("Dividend Yield", Metric.str (renderFixed2 (info.dividendYield.getD 0 * 100) ++ "%")),
      ("Dividend Rate", Metric.str ("₹" ++ renderFixed2 dr)),
      ("Payout Ratio", Metric.str (renderFixed2 (info.payoutRatio.getD 0 * 100) ++ "%"))]),
   ("Performance",
     [("52-Week High", Metric.str ("₹" ++ renderFixed2 hi)),
      ("52-Week Low", Metric.str ("₹" ++ renderFixed2 lo)),
      ("1Y Return", Metric.str (renderFixed2 (info.week52Change.getD 0 * 100) ++ "%"))]),
   ("Growth",
     [("EPS (Trailing)", Metric.num (pyRound2 (info.trailingEps.getD 0))),
      ("EPS (Forward)", Metric.num (pyRound2 (info.forwardEps.getD 0))),
      ("Revenue Growth", Metric.str (renderFixed2 (info.revenueGrowth.getD 0 * 100) ++ "%"))])]

/-! ## Price history (`plot_price_history`, src/main.py lines 59-94) -/

/-- The pandas DataFrame returned by `yf.download`: a date index and named
columns. An empty download keeps its column structure with no rows. -/
structure Frame where
  index : List String
  columns : List (String × List ℚ)
deriving DecidableEq

/-- The Plotly line chart `plot_price_history` builds. -/
structure Figure where
  x : List String
  y : List ℚ
  title : String
  xaxisTitle : String
  yaxisTitle : String
deriving DecidableEq

/-- `plot_price_history` (src/main.py lines 59-94): downloads history, plots
`df['Close']` against `df.index`. A raising download or a missing `Close`
column is caught by the `except` and yields `None`; any frame with a
`Close` column, rows or not, yields a figure. -/
def plot_price_history (ticker : String) (downloaded : Except String Frame) : Option Figure :=
  match downloaded with
  | .error _ => none
  | .ok df =>
    match df.columns.lookup "Close" with
    | none => none
    | some close =>
      some { x := df.index, y := close,
             title := ticker ++ " Stock Price History",
             xaxisTitle := "Date", yaxisTitle := "Price (₹)" }

/-! ## The insight branches of `main` (src/main.py lines 146-177) -/

inductive Verdict where
  | success (msg : String)
  | info (msg : String)
  | warning (msg : String)
deriving DecidableEq

/-- `metrics[category][label]`. -/
def dictGet? (m : Metrics) (cat lbl : String) : Option Metric :=
  match List.lookup cat m with
  | some grp => List.lookup lbl grp
  | none => none

/-- Lines 150-157: `pe_ratio = metrics['Valuation']['P/E Ratio']`, then the
`< 15` / `> 25` / else branches with `st.success` / `st.warning` /
`st.info`. A missing key or a non-numeric value would raise. -/
def valuationInsight (m : Metrics) : Except String Verdict :=
  match dictGet? m "Valuation" "P/E Ratio" with
  | none => .error "KeyError"
  | some (Metric.str _) => .error "TypeError: comparison of str and int"
  | some (Metric.num pe) =>
    if pe < 15 then .ok (Verdict.success "Low P/E - Potentially Undervalued")
    else if pe > 25 then .ok (Verdict.warning "High P/E - Potentially Overvalued")
    else .ok (Verdict.info "Reasonable Valuation")

/-- Lines 160-167: parse `metrics['Dividend']['Dividend Yield']` with
`float(s.replace('%', ''))`, then the `> 3` / `> 1` / else branches. -/
def dividendInsight (m : Metrics) : Except String Verdict :=
  match dictGet? m "Dividend" "Dividend Yield" with
  | none => .error "KeyError"
  | some (Metric.num _) => .error "AttributeError: float has no attribute replace"
  | some (Metric.str s) =>
    match pyFloat? (s.data.filter (fun c => c ≠ '%')) with
    | none => .error "ValueError: could not convert string to float"
    | some d =>
      if d > 3 then .ok (Verdict.success "High Dividend Yield")
      else if d > 1 then .ok (Verdict.info "Moderate Dividend")
      else .ok (Verdict.warning "Low Dividend Yield")

/-- Lines 170-177: parse `metrics['Growth']['Revenue Growth']` with
`float(s.replace('%', ''))`, then the `> 10` / `> 5` / else branches. -/
def growthInsight (m : Metrics) : Except String Verdict :=
  match dictGet? m "Growth" "Revenue Growth" with
  | none => .error "KeyError"
  | some (Metric.num _) => .error "AttributeError: float has no attribute replace"
  | some (Metric.str s) =>
    match pyFloat? (s.data.filter (fun c => c ≠ '%')) with
    | none => .error "ValueError: could not convert string to float"
    | some g =>
      if g > 10 then .ok (Verdict.success "Strong Growth Potential")
      else if g > 5 then .ok (Verdict.info "Moderate Growth")
      else .ok (Verdict.warning "Limited Growth")

/-- The number the Dividend Health branch actually compares: the stored
percent string, stripped of `%` and parsed by `float`. -/
def parsedDividendYield (m : Metrics) : Option ℚ :=
  match dictGet? m "Dividend" "Dividend Yield" with
  | some (Metric.str s) => pyFloat? (s.data.filter (fun c => c ≠ '%'))
  | _ => none

/-- The number the Growth Potential branch actually compares. -/
def parsedRevenueGrowth (m : Metrics) : Option ℚ :=
  match dictGet? m "Growth" "Revenue Growth" with
  | some (Metric.str s) => pyFloat? (s.data.filter (fun c => c ≠ '%'))
  | _ => none

/-! ## Provider calls issued by one analysis (`main`, src/main.py 113-143) -/

inductive ProviderCall where
  | snapshotFetch (ticker : String)
  | historyDownload (ticker : String) (period : String)
deriving DecidableEq

/-- The outcomes the external provider returns during one analysis: the
fundamentals snapshot (`yf.Ticker(...).info`, deterministic within a single
analysis) and the history download (`yf.download`). -/
structure Provider where
  snapshot : Except String Snapshot
  history : Except String Frame

/-- The blocking provider calls `main` issues for one analysis, in order:
`get_key_metrics` fetches `stock.info` (line 17-18); if metrics came back,
line 119-120 constructs a fresh `yf.Ticker` and reads `stock.info` again for
`longName`, and line 140 calls `plot_price_history`, which runs
`yf.download` (line 70). Nothing else touches the provider. -/
def analyzeTrace (ticker : String) (P : Provider) : List ProviderCall :=
  match get_key_metrics P.snapshot with
  | .error _ => [ProviderCall.snapshotFetch ticker]
  | .ok _ => [ProviderCall.snapshotFetch ticker, ProviderCall.snapshotFetch ticker,
              ProviderCall.historyDownload ticker "1y"]

/-! ## Concrete inputs used by the witnesses and counterexamples -/

/-- A snapshot with every field present (values chosen small and exact). -/
def snapFull : Snapshot where
  currentPrice := some 100
  marketCap := some 1000000
  trailingPE := some 14
  priceToBook := some 2
  forwardPE := some 12
  dividendYield := some (mkRat 3 100)
  dividendRate := some 5
  payoutRatio := some (mkRat 1 2)
  fiftyTwoWeekHigh := some 120
  fiftyTwoWeekLow := some 80
  week52Change := some (mkRat 1 10)
  trailingEps := some 7
  forwardEps := some 8
  revenueGrowth := some (mkRat 1 5)
  longName := some "Demo Corp"

/-! ## Structure of a successful metrics result -/

theorem pyFmtFixed2NA_ok {o : Option ℚ} {s : String} (h : pyFmtFixed2NA o = .ok s) :
    ∃ q, o = some q ∧ s = renderFixed2 q := by
  cases o with
  | none => simp [pyFmtFixed2NA] at h
  | some q =>
    simp only [pyFmtFixed2NA, Except.ok.injEq] at h
    exact ⟨q, rfl, h.symm⟩

theorem pyFmtCommaNA_ok {o : Option ℤ} {s : String} (h : pyFmtCommaNA o = .ok s) :
    ∃ z, o = some z ∧ s = renderComma z := by
  cases o with
  | none => simp [pyFmtCommaNA] at h
  | some z =>
    simp only [pyFmtCommaNA, Except.ok.injEq] at h
    exact ⟨z, rfl, h.symm⟩

/-- A successful `buildMetrics` run forces the five currency-style fields to
be present and determines the resulting dictionary completely. -/
theorem buildMetrics_ok {info : Snapshot} {m : Metrics}
    (h : buildMetrics info = Except.ok m) :
    ∃ cp mc dr hi lo, info.currentPrice = some cp ∧ info.marketCap = some mc ∧
      info.dividendRate = some dr ∧ info.fiftyTwoWeekHigh = some hi ∧
      info.fiftyTwoWeekLow = some lo ∧ m = metricsOf info cp mc dr hi lo := by
  unfold buildMetrics at h
  split at h
  next => simp at h
  next heq1 =>
  split at h
  next => simp at h
  next heq2 =>
  split at h
  next => simp at h
  next heq3 =>
  split at h
  next => simp at h
  next heq4 =>
  split at h
  next => simp at h
  next heq5 =>
    obtain ⟨cp, hcp, rfl⟩ := pyFmtFixed2NA_ok heq1
    obtain ⟨mc, hmc, rfl⟩ := pyFmtCommaNA_ok heq2
    obtain ⟨dr, hdr, rfl⟩ := pyFmtFixed2NA_ok heq3
    obtain ⟨hi, hhi, rfl⟩ := pyFmtFixed2NA_ok heq4
    obtain ⟨lo, hlo, rfl⟩ := pyFmtFixed2NA_ok heq5
    injection h with h2
    exact ⟨cp, mc, dr, hi, lo, hcp, hmc, hdr, hhi, hlo, h2.symm⟩

/-- The metrics dictionary built from `snapFull`. -/
def mFull : Metrics := (buildMetrics snapFull).toOption.getD []

/-- `snapFull` with the trailing P/E key absent. -/
def snapNoPE : Snapshot := { snapFull with trailingPE := none }

def mNoPE : Metrics := (buildMetrics snapNoPE).toOption.getD []

/-- `snapFull` with a trailing P/E of exactly 14.99. -/
def snapPE1499 : Snapshot := { snapFull with trailingPE := some (mkRat 1499 100) }

/-- `snapFull` with a raw dividend yield of 0.0301 (3.01 percent). -/
def snapDiv301 : Snapshot := { snapFull with dividendYield := some (mkRat 301 10000) }

def mDiv301 : Metrics := (buildMetrics snapDiv301).toOption.getD []

/-- `snapFull` with a raw revenue growth of 0.1001 (10.01 percent). -/
def snapGrowth1001 : Snapshot := { snapFull with revenueGrowth := some (mkRat 1001 10000) }

def mGrowth1001 : Metrics := (buildMetrics snapGrowth1001).toOption.getD []

/-- `snapFull` with a raw dividend yield of 0.030001: 3.0001 percent, which
formats to the string `3.00%`. -/
def snapHP : Snapshot := { snapFull with dividendYield := some (mkRat 30001 1000000) }

def mHP : Metrics := (buildMetrics snapHP).toOption.getD []

/-- A snapshot where only the five currency-style fields are present; every
numeric-default field is absent. -/
def snapNumericAbsent : Snapshot where
  currentPrice := some 100
  marketCap := some 1000000
  dividendRate := some 5
  fiftyTwoWeekHigh := some 120
  fiftyTwoWeekLow := some 80

/-- An empty download that kept its column structure: a `Close` column with
zero rows, as `yf.download` returns for a failed ticker. -/
def frameEmptyClose : Frame where
  index := []
  columns := [("Close", [])]

/-- A well-formed two-day download. -/
def frameFull : Frame where
  index := ["2024-01-01", "2024-01-02"]
  columns := [("Open", [99, 101]), ("Close", [100, 102])]

/-- A provider for which both calls succeed. -/
def providerFull : Provider where
  snapshot := Except.ok snapFull
  history := Except.ok frameFull

/-! ## Entries of the successful metrics dictionary -/

theorem dictGet_metricsOf_pe (info : Snapshot) (cp : ℚ) (mc : ℤ) (dr hi lo : ℚ) :
    dictGet? (metricsOf info cp mc dr hi lo) "Valuation" "P/E Ratio" =
      some (Metric.num (pyRound2 (info.trailingPE.getD 0))) := rfl

theorem dictGet_metricsOf_divYield (info : Snapshot) (cp : ℚ) (mc : ℤ) (dr hi lo : ℚ) :
    dictGet? (metricsOf info cp mc dr hi lo) "Dividend" "Dividend Yield" =
      some (Metric.str (renderFixed2 (info.dividendYield.getD 0 * 100) ++ "%")) := rfl

theorem dictGet_metricsOf_revGrowth (info : Snapshot) (cp : ℚ) (mc : ℤ) (dr hi lo : ℚ) :
    dictGet? (metricsOf info cp mc dr hi lo) "Growth" "Revenue Growth" =
      some (Metric.str (renderFixed2 (info.revenueGrowth.getD 0 * 100) ++ "%")) := rfl


/-! ## Claims -/

/-- C2 (counterexample): at a trailing P/E of exactly 14.99 the Valuation
advisory message is `Low P/E - Potentially Undervalued`, not the bare
`Potentially Undervalued` the claim states. -/
theorem valuation_message_counterexample :
    (get_key_metrics (Except.ok snapPE1499)).map valuationInsight =
      Except.ok (Except.ok (Verdict.success "Low P/E - Potentially Undervalued")) ∧
    Verdict.success "Low P/E - Potentially Undervalued" ≠
      Verdict.success "Potentially Undervalued" := by
  exact ⟨by decide, by decide⟩

/-- C2 (amended): for every numeric P/E value `p` stored in the Valuation
group, the advisory is Success `Low P/E - Potentially Undervalued` iff
`p < 15`, Warning `High P/E - Potentially Overvalued` iff `p > 25`, and
Info `Reasonable Valuation` otherwise; 15 and 25 fall to the middle
branch. -/
theorem valuation_advisory_thresholds (m : Metrics) (p : ℚ)
    (h : dictGet? m "Valuation" "P/E Ratio" = some (Metric.num p)) :
    (valuationInsight m =
        Except.ok (Verdict.success "Low P/E - Potentially Undervalued") ↔ p < 15) ∧
    (valuationInsight m =
        Except.ok (Verdict.warning "High P/E - Potentially Overvalued") ↔ p > 25) ∧
    (valuationInsight m =
        Except.ok (Verdict.info "Reasonable Valuation") ↔ (15 ≤ p ∧ p ≤ 25)) := by
  have hv : valuationInsight m =
      if p < 15 then Except.ok (Verdict.success "Low P/E - Potentially Undervalued")
      else if p > 25 then Except.ok (Verdict.warning "High P/E - Potentially Overvalued")
      else Except.ok (Verdict.info "Reasonable Valuation") := by
    unfold valuationInsight
    rw [h]
  rw [hv]
  clear hv h
  split_ifs with h1 h2 <;>
    refine ⟨?_, ?_, ?_⟩ <;>
    constructor <;>
    intro hh <;>
    simp_all <;>
    linarith

theorem valuation_advisory_thresholds_witness :
    valuationInsight mFull =
      Except.ok (Verdict.success "Low P/E - Potentially Undervalued") :=
  ((valuation_advisory_thresholds mFull 14 (by decide)).1).mpr (by norm_num)

/-- C3: for every dividend-yield value `d` parsed back from the Dividend
group percent string, the advisory is Success `High Dividend Yield` iff
`d > 3`, Info `Moderate Dividend` iff `1 < d ≤ 3`, and Warning
`Low Dividend Yield` iff `d ≤ 1`. -/
theorem dividend_advisory_thresholds (m : Metrics) (d : ℚ)
    (h : parsedDividendYield m = some d) :
    (dividendInsight m = Except.ok (Verdict.success "High Dividend Yield") ↔ d > 3) ∧
    (dividendInsight m = Except.ok (Verdict.info "Moderate Dividend") ↔ (1 < d ∧ d ≤ 3)) ∧
    (dividendInsight m = Except.ok (Verdict.warning "Low Dividend Yield") ↔ d ≤ 1) := by
  unfold parsedDividendYield at h
  split at h
  next s heq =>
    have hv : dividendInsight m =
        if d > 3 then Except.ok (Verdict.success "High Dividend Yield")
        else if d > 1 then Except.ok (Verdict.info "Moderate Dividend")
        else Except.ok (Verdict.warning "Low Dividend Yield") := by
      unfold dividendInsight
      rw [heq]
      show (match pyFloat? (s.data.filter (fun c => c ≠ '%')) with
            | none => Except.error "ValueError: could not convert string to float"
            | some d =>
              if d > 3 then Except.ok (Verdict.success "High Dividend Yield")
              else if d > 1 then Except.ok (Verdict.info "Moderate Dividend")
              else Except.ok (Verdict.warning "Low Dividend Yield")) = _
      rw [h]
    rw [hv]
    clear hv h heq
    split_ifs with h1 h2 <;>
      refine ⟨?_, ?_, ?_⟩ <;>
      constructor <;>
      intro hh <;>
      simp_all <;>
      linarith
  next => simp at h

theorem dividend_advisory_thresholds_witness :
    dividendInsight mDiv301 = Except.ok (Verdict.success "High Dividend Yield") :=
  ((dividend_advisory_thresholds mDiv301 (mkRat 301 100) (by decide)).1).mpr (by norm_num)

/-- C4: for every revenue-growth value `g` parsed back from the Growth group
percent string, the advisory is Success `Strong Growth Potential` iff
`g > 10`, Info `Moderate Growth` iff `5 < g ≤ 10`, and Warning
`Limited Growth` iff `g ≤ 5`. -/
theorem growth_advisory_thresholds (m : Metrics) (g : ℚ)
    (h : parsedRevenueGrowth m = some g) :
    (growthInsight m = Except.ok (Verdict.success "Strong Growth Potential") ↔ g > 10) ∧
    (growthInsight m = Except.ok (Verdict.info "Moderate Growth") ↔ (5 < g ∧ g ≤ 10)) ∧
    (growthInsight m = Except.ok (Verdict.warning "Limited Growth") ↔ g ≤ 5) := by
  unfold parsedRevenueGrowth at h
  split at h
  next s heq =>
    have hv : growthInsight m =
        if g > 10 then Except.ok (Verdict.success "Strong Growth Potential")
        else if g > 5 then Except.ok (Verdict.info "Moderate Growth")
        else Except.ok (Verdict.warning "Limited Growth") := by
      unfold growthInsight
      rw [heq]
      show (match pyFloat? (s.data.filter (fun c => c ≠ '%')) with
            | none => Except.error "ValueError: could not convert string to float"
            | some g =>
              if g > 10 then Except.ok (Verdict.success "Strong Growth Potential")
              else if g > 5 then Except.ok (Verdict.info "Moderate Growth")
              else Except.ok (Verdict.warning "Limited Growth")) = _
      rw [h]
    rw [hv]
    clear hv h heq
    split_ifs with h1 h2 <;>
      refine ⟨?_, ?_, ?_⟩ <;>
      constructor <;>
      intro hh <;>
      simp_all <;>
      linarith
  next => simp at h

theorem growth_advisory_thresholds_witness :
    growthInsight mGrowth1001 = Except.ok (Verdict.success "Strong Growth Potential") :=
  ((growth_advisory_thresholds mGrowth1001 (mkRat 1001 100) (by decide)).1).mpr (by norm_num)

/-- C1 (code slip): when any of the five currency-style fields is absent the
`N/A` default meets a numeric format spec, the f-string raises, the
`except` catches it, and `get_key_metrics` returns a Failure instead of a
metrics dictionary with the documented default; a snapshot missing only
numeric-default fields does succeed. -/
theorem missing_currency_fields_fail :
    get_key_metrics (Except.ok { snapFull with currentPrice := none }) =
      Except.error "Error fetching stock data: Unknown format code f for object of type str" ∧
    get_key_metrics (Except.ok { snapFull with marketCap := none }) =
      Except.error "Error fetching stock data: Cannot specify , with s" ∧
    get_key_metrics (Except.ok { snapFull with dividendRate := none }) =
      Except.error "Error fetching stock data: Unknown format code f for object of type str" ∧
    get_key_metrics (Except.ok { snapFull with fiftyTwoWeekHigh := none }) =
      Except.error "Error fetching stock data: Unknown format code f for object of type str" ∧
    get_key_metrics (Except.ok { snapFull with fiftyTwoWeekLow := none }) =
      Except.error "Error fetching stock data: Unknown format code f for object of type str" ∧
    (get_key_metrics (Except.ok snapNumericAbsent)).toOption.isSome = true := by
  exact ⟨by decide, by decide, by decide, by decide, by decide, by decide⟩

/-- C5: a failing provider fetch makes `get_key_metrics` report exactly one
Failure carrying the error message, and a successful result always carries
all four complete groups with every documented label, never a subset. -/
theorem fetch_failure_all_or_nothing (fetched : Except String Snapshot) :
    (∀ e, fetched = Except.error e →
      get_key_metrics fetched = Except.error ("Error fetching stock data: " ++ e)) ∧
    (∀ m, get_key_metrics fetched = Except.ok m →
      List.map Prod.fst m = ["Valuation", "Dividend", "Performance", "Growth"] ∧
      List.map (fun g => g.2.map Prod.fst) m =
        [["Current Price", "Market Cap", "P/E Ratio", "Price to Book", "Forward P/E"],
         ["Dividend Yield", "Dividend Rate", "Payout Ratio"],
         ["52-Week High", "52-Week Low", "1Y Return"],
         ["EPS (Trailing)", "EPS (Forward)", "Revenue Growth"]]) := by
  constructor
  · rintro e rfl
    rfl
  · intro m hm
    cases fetched with
    | error e => simp [get_key_metrics] at hm
    | ok info =>
      simp only [get_key_metrics] at hm
      split at hm
      next => simp at hm
      next m2 heq =>
        injection hm with hm2
        subst hm2
        obtain ⟨cp, mc, dr, hi, lo, _, _, _, _, _, rfl⟩ := buildMetrics_ok heq
        exact ⟨rfl, rfl⟩

theorem fetch_failure_all_or_nothing_witness :
    get_key_metrics (Except.error "HTTPError 404") =
      Except.error "Error fetching stock data: HTTPError 404" :=
  (fetch_failure_all_or_nothing (Except.error "HTTPError 404")).1 "HTTPError 404" rfl

/-- C6 (counterexample): a successful metrics dictionary holds 14 formatted
fields in total (5 + 3 + 3 + 3), not 16 as the claim states. -/
theorem metrics_field_count_counterexample :
    (buildMetrics snapFull).map (fun m => (List.map (fun g => g.2.length) m).sum) =
      Except.ok 14 ∧ (14 : ℕ) ≠ 16 := by
  exact ⟨by decide, by decide⟩

/-- C6 (amended): every successful metrics result has exactly the four
categories Valuation, Dividend, Performance, Growth in that order, with
exactly 5, 3, 3 and 3 entries carrying the documented labels in the
documented order - 14 formatted fields in total. -/
theorem metrics_grouping_shape (info : Snapshot) (m : Metrics)
    (h : buildMetrics info = Except.ok m) :
    List.map Prod.fst m = ["Valuation", "Dividend", "Performance", "Growth"] ∧
    List.map (fun g => g.2.map Prod.fst) m =
      [["Current Price", "Market Cap", "P/E Ratio", "Price to Book", "Forward P/E"],
       ["Dividend Yield", "Dividend Rate", "Payout Ratio"],
       ["52-Week High", "52-Week Low", "1Y Return"],
       ["EPS (Trailing)", "EPS (Forward)", "Revenue Growth"]] ∧
    List.map (fun g => g.2.length) m = [5, 3, 3, 3] ∧
    (List.map (fun g => g.2.length) m).sum = 14 := by
  obtain ⟨cp, mc, dr, hi, lo, _, _, _, _, _, rfl⟩ := buildMetrics_ok h
  exact ⟨rfl, rfl, rfl, rfl⟩

theorem metrics_grouping_shape_witness :
    List.map Prod.fst mFull = ["Valuation", "Dividend", "Performance", "Growth"] ∧
    List.map (fun g => g.2.map Prod.fst) mFull =
      [["Current Price", "Market Cap", "P/E Ratio", "Price to Book", "Forward P/E"],
       ["Dividend Yield", "Dividend Rate", "Payout Ratio"],
       ["52-Week High", "52-Week Low", "1Y Return"],
       ["EPS (Trailing)", "EPS (Forward)", "Revenue Growth"]] ∧
    List.map (fun g => g.2.length) mFull = [5, 3, 3, 3] ∧
    (List.map (fun g => g.2.length) mFull).sum = 14 :=
  metrics_grouping_shape snapFull mFull (by decide)

/-- C7 (counterexample): a download that returns a well-formed frame with a
`Close` column and zero rows does not signal Failure: `plot_price_history`
returns a figure whose data series is empty, and `main` renders any
non-`None` figure. -/
theorem empty_series_renders_chart :
    (plot_price_history "RELIANCE.NS" (Except.ok frameEmptyClose)).isSome = true ∧
    (plot_price_history "RELIANCE.NS" (Except.ok frameEmptyClose)).map Figure.y =
      some [] := by
  exact ⟨by decide, by decide⟩

/-- C7 (amended): `plot_price_history` yields Failure (`None`) exactly when
the download raises or the frame has no `Close` column; any frame with a
`Close` column - rows or not - yields a chart of that column. -/
theorem price_history_failure_conditions (t : String) (r : Except String Frame) :
    (∀ e, r = Except.error e → plot_price_history t r = none) ∧
    (∀ df, r = Except.ok df → List.lookup "Close" df.columns = none →
      plot_price_history t r = none) ∧
    (∀ df close, r = Except.ok df → List.lookup "Close" df.columns = some close →
      plot_price_history t r =
        some { x := df.index, y := close, title := t ++ " Stock Price History",
               xaxisTitle := "Date", yaxisTitle := "Price (₹)" }) := by
  refine ⟨?_, ?_, ?_⟩
  · rintro e rfl
    rfl
  · rintro df rfl hl
    simp only [plot_price_history]
    rw [hl]
  · rintro df close rfl hl
    simp only [plot_price_history]
    rw [hl]

theorem price_history_failure_conditions_witness :
    plot_price_history "RELIANCE.NS" (Except.ok frameEmptyClose) =
      some { x := [], y := [], title := "RELIANCE.NS Stock Price History",
             xaxisTitle := "Date", yaxisTitle := "Price (₹)" } :=
  (price_history_failure_conditions "RELIANCE.NS" (Except.ok frameEmptyClose)).2.2
    frameEmptyClose [] rfl (by decide)

/-- C8 (counterexample): a successful analysis issues three provider calls -
the fundamentals fetch inside `get_key_metrics`, a second fundamentals fetch
for the `longName` header, and the history download - not at most two. -/
theorem three_provider_calls :
    analyzeTrace "INFY.NS" providerFull =
      [ProviderCall.snapshotFetch "INFY.NS", ProviderCall.snapshotFetch "INFY.NS",
       ProviderCall.historyDownload "INFY.NS" "1y"] ∧
    ¬ (analyzeTrace "INFY.NS" providerFull).length ≤ 2 := by
  exact ⟨by decide, by decide⟩

/-- C8 (amended): one analysis issues at most three blocking provider calls,
sequentially: one fundamentals fetch when the metrics step fails, else two
fundamentals fetches followed by one history download. -/
theorem provider_call_trace (t : String) (P : Provider) :
    (analyzeTrace t P = [ProviderCall.snapshotFetch t] ∨
      analyzeTrace t P = [ProviderCall.snapshotFetch t, ProviderCall.snapshotFetch t,
        ProviderCall.historyDownload t "1y"]) ∧
    (analyzeTrace t P).length ≤ 3 := by
  unfold analyzeTrace
  cases get_key_metrics P.snapshot with
  | error e => exact ⟨Or.inl rfl, by simp⟩
  | ok m => exact ⟨Or.inr rfl, by simp⟩

/-- C9: whenever the snapshot lacks `trailingPE` and the metrics build
succeeds, the stored P/E is the default 0, so the Valuation advisory is
always Success `Low P/E - Potentially Undervalued`. -/
theorem missing_pe_defaults_to_undervalued (info : Snapshot) (m : Metrics)
    (hpe : info.trailingPE = none) (h : buildMetrics info = Except.ok m) :
    valuationInsight m = Except.ok (Verdict.success "Low P/E - Potentially Undervalued") := by
  obtain ⟨cp, mc, dr, hi, lo, _, _, _, _, _, rfl⟩ := buildMetrics_ok h
  have hget := dictGet_metricsOf_pe info cp mc dr hi lo
  rw [hpe] at hget
  have h0 : pyRound2 (Option.getD (none : Option ℚ) 0) = 0 := by
    norm_num [pyRound2, roundHalfEven]
  rw [h0] at hget
  unfold valuationInsight
  rw [hget]
  norm_num

theorem missing_pe_defaults_to_undervalued_witness :
    valuationInsight mNoPE =
      Except.ok (Verdict.success "Low P/E - Potentially Undervalued") :=
  missing_pe_defaults_to_undervalued snapNoPE mNoPE rfl (by decide)

/-- C10: the Dividend Health and Growth Potential advisories classify the
format-then-parse image of the raw fraction: the value compared is exactly
`round(raw * 100, 2)` (half-even at two decimals). -/
theorem advisory_input_is_rounded_percent (info : Snapshot) (m : Metrics) (v w : ℚ)
    (hv : info.dividendYield = some v) (hw : info.revenueGrowth = some w)
    (h : buildMetrics info = Except.ok m) :
    parsedDividendYield m = some (pyRound2 (v * 100)) ∧
    parsedRevenueGrowth m = some (pyRound2 (w * 100)) := by
  obtain ⟨cp, mc, dr, hi, lo, _, _, _, _, _, rfl⟩ := buildMetrics_ok h
  constructor
  · have hget := dictGet_metricsOf_divYield info cp mc dr hi lo
    rw [hv] at hget
    unfold parsedDividendYield
    rw [hget]
    show pyFloat? (((renderFixed2 ((some v).getD 0 * 100) ++ "%").data).filter
      (fun c => c ≠ '%')) = some (pyRound2 (v * 100))
    rw [Option.getD_some]
    exact pct_roundtrip (v * 100)
  · have hget := dictGet_metricsOf_revGrowth info cp mc dr hi lo
    rw [hw] at hget
    unfold parsedRevenueGrowth
    rw [hget]
    show pyFloat? (((renderFixed2 ((some w).getD 0 * 100) ++ "%").data).filter
      (fun c => c ≠ '%')) = some (pyRound2 (w * 100))
    rw [Option.getD_some]
    exact pct_roundtrip (w * 100)

theorem advisory_input_is_rounded_percent_witness :
    (parsedDividendYield mHP = some (pyRound2 (mkRat 30001 1000000 * 100)) ∧
      parsedRevenueGrowth mHP = some (pyRound2 (mkRat 1 5 * 100))) ∧
    dividendInsight mHP = Except.ok (Verdict.info "Moderate Dividend") :=
  ⟨advisory_input_is_rounded_percent snapHP mHP (mkRat 30001 1000000) (mkRat 1 5)
      rfl rfl (by decide),
    by decide⟩
